import Mathlib

/-! # Verification of the movie-list CRUD application

Shallow embedding of `src/app.py`: a command-line movie tracker whose state
is two delimited text stores (a credential table and a movie table).  The
stores are modelled as Lean lists of rows; the CSV layer itself round-trips
field strings unchanged, so a store state is the ordered list of data rows
with every absent field defaulted to the empty string, exactly the shape
`load_all_movie_rows` presents to the CRUD code.
-/

namespace MovieApp

/-! ## Python string primitives

The code relies on `str.strip`, `str.upper`, `str.isdigit`, `int(...)` and
`float(...)`.  These are modelled over the `List Char` representation of
Lean strings.  The whitespace set and case mapping are the ASCII ones; the
application only ever compares ASCII data, where the Python behaviour
coincides.
-/

/-- Whitespace characters removed by Python `str.strip()` (ASCII subset). -/
def pyWs (c : Char) : Bool :=
  c == ' ' || c == '\t' || c == '\n' || c == '\r' || c == '\x0b' || c == '\x0c'

/-- Remove leading and trailing whitespace from a character list. -/
def stripList (l : List Char) : List Char :=
  ((l.dropWhile pyWs).reverse.dropWhile pyWs).reverse

/-- Python `s.strip()`. -/
def pyStrip (s : String) : String :=
  String.mk (stripList s.data)

/-- Python `s.upper()` (ASCII case mapping). -/
def pyUpper (s : String) : String :=
  String.mk (s.data.map Char.toUpper)

/-! ## Data model

`Row` is one data row of `movies.csv` as produced by `load_all_movie_rows`:
a dict with exactly the keys of `MOVIES_FIELDS`, every missing value
defaulted to `""`.  `Movie` is the `Movie` dataclass.  `CredRow` is one
data row of `users.csv` as seen by `load_users`. -/

/-- One raw row of the movie store (`MOVIES_FIELDS` keys, string values). -/
structure Row where
  username : String
  movie_name : String
  director : String
  genre : String
  rating : String
  year : String
  watched : String
deriving DecidableEq, Repr

/-- The `Movie` dataclass of `app.py`. -/
structure Movie where
  username : String
  movie_name : String
  director : String
  genre : String
  rating : String
  year : String
  watched : String
deriving DecidableEq, Repr

/-- One raw row of the credential store (`username`, `password`). -/
structure CredRow where
  username : String
  password : String
deriving DecidableEq, Repr

/-! ## Record store operations (`app.py` lines 57-145) -/

/-- Step of the `load_users` loop: strip both fields and, when the stripped
username is non-blank (Python `if u:`), overwrite the dict entry. -/
def load_users_step (users : String → Option String) (row : CredRow) :
    String → Option String :=
  let u := pyStrip row.username
  let p := pyStrip row.password
  if u ≠ "" then fun x => if x = u then some p else users x else users

/-- `load_users()`: fold the rows of `users.csv` into a dict, modelled as a
lookup function (`none` = key absent). -/
def load_users (rows : List CredRow) : String → Option String :=
  rows.foldl load_users_step (fun _ => none)

/-- Conversion applied by `load_movies_for_user` to a row it keeps: the
`username` field is set to the (already matched) argument, the other fields
are stripped, `watched` additionally upper-cased. -/
def row_to_movie (username : String) (row : Row) : Movie :=
  ⟨username, pyStrip row.movie_name, pyStrip row.director, pyStrip row.genre,
    pyStrip row.rating, pyStrip row.year, pyUpper (pyStrip row.watched)⟩

/-- `load_movies_for_user(username)`: keep the rows whose stripped
`username` field equals the argument, in store order. -/
def load_movies_for_user (username : String) (store : List Row) : List Movie :=
  (store.filter (fun row => pyStrip row.username == username)).map
    (row_to_movie username)

/-- The row written by `append_movie`: each CSV field is the corresponding
`Movie` field, verbatim. -/
def movie_to_row (mv : Movie) : Row :=
  ⟨mv.username, mv.movie_name, mv.director, mv.genre, mv.rating, mv.year,
    mv.watched⟩

/-- `append_movie(movie)`: add one row at the end of the store. -/
def append_movie (mv : Movie) (store : List Row) : List Row :=
  store ++ [movie_to_row mv]

/-- `add_movie` calls `append_movie` once per record; appending a list of
records in order is this fold. -/
def append_all (ms : List Movie) (store : List Row) : List Row :=
  ms.foldl (fun s m => append_movie m s) store

/-- `movie_row_matches(row, mv)`: full-field equality of a raw row against
a `Movie`, stripping every row field and comparing `watched`
case-insensitively on both sides. -/
def movie_row_matches (row : Row) (mv : Movie) : Bool :=
  (pyStrip row.username == mv.username)
    && (pyStrip row.movie_name == mv.movie_name)
    && (pyStrip row.director == mv.director)
    && (pyStrip row.genre == mv.genre)
    && (pyStrip row.rating == mv.rating)
    && (pyStrip row.year == mv.year)
    && (pyUpper (pyStrip row.watched) == pyUpper (pyStrip mv.watched))

/-- The guard of the delete/update scan loops, inlined in the source:
`(row.get("username") or "").strip() == username and movie_row_matches(row, mv)`. -/
def user_row_match (username : String) (mv : Movie) (row : Row) : Bool :=
  (pyStrip row.username == username) && movie_row_matches row mv

/-- The scan loop of `delete_movie_record`: drop the first row satisfying
the guard, keep everything else in order; the flag reports whether a row
was dropped. -/
def delete_scan (username : String) (target : Movie) :
    List Row → Bool × List Row
  | [] => (false, [])
  | row :: rest =>
    if user_row_match username target row then
      (true, rest)
    else
      let r := delete_scan username target rest
      (r.1, row :: r.2)

/-- `delete_movie_record(username, movie_to_delete)`: run the scan; the
store file is rewritten (to the scanned rows) only when a row was deleted,
otherwise the store is left as it was.  Returns the deleted flag and the
resulting store state. -/
def delete_movie_record (username : String) (target : Movie)
    (store : List Row) : Bool × List Row :=
  let r := delete_scan username target store
  if r.1 then (true, r.2) else (false, store)

/-- The row written in place by `update_movie_record` when the guard fires:
every field of the matched dict is reassigned — `username` from the
authenticated argument, the rest from `new_movie`. -/
def updated_row (username : String) (newm : Movie) : Row :=
  ⟨username, newm.movie_name, newm.director, newm.genre, newm.rating,
    newm.year, newm.watched⟩

/-- The scan loop of `update_movie_record`: replace the first row
satisfying the guard (then `break`), keep everything else in order. -/
def update_scan (username : String) (oldm newm : Movie) :
    List Row → Bool × List Row
  | [] => (false, [])
  | row :: rest =>
    if user_row_match username oldm row then
      (true, updated_row username newm :: rest)
    else
      let r := update_scan username oldm newm rest
      (r.1, row :: r.2)

/-- `update_movie_record(username, old_movie, new_movie)`: run the scan;
the store file is rewritten only when a row was updated. -/
def update_movie_record (username : String) (oldm newm : Movie)
    (store : List Row) : Bool × List Row :=
  let r := update_scan username oldm newm store
  if r.1 then (true, r.2) else (false, store)

/-! ## Field validators (`app.py` lines 316-338)

`validate_year_input` guards `int(v)` with `v.isdigit()`.  Python's
`str.isdigit` is true for every character of Unicode `Numeric_Type=Digit`
or `Decimal`, which is strictly larger than the set `int` parses: the
compatibility superscript digits `¹ ² ³` satisfy `isdigit` but make
`int(...)` raise `ValueError`.  The embedding models the decimal digits as
ASCII `0-9` and carries the three Latin-1 superscript digits as
representatives of the digit-but-not-decimal class; an uncaught exception
is modelled as `none`. -/

/-- Latin-1 superscript digits: accepted by Python `str.isdigit` but
rejected by `int(...)` (Numeric_Type=Digit, not Decimal). -/
def superscriptDigits : List Char := ['¹', '²', '³']

/-- One character of Python `str.isdigit` (decimal digits plus the
modelled digit-property characters). -/
def pyIsDigitChar (c : Char) : Bool :=
  c.isDigit || superscriptDigits.contains c

/-- Python `v.isdigit()`: non-empty and every character a digit. -/
def pyStrIsDigit (s : String) : Bool :=
  !s.isEmpty && s.data.all pyIsDigitChar

/-- Base-10 value of a list of decimal digit characters. -/
def natOfDigits (l : List Char) : Nat :=
  l.foldl (fun n c => 10 * n + (c.toNat - '0'.toNat)) 0

/-- Python `int(v)` restricted to the inputs that pass `v.isdigit()`:
succeeds exactly when every character is a decimal digit (`0-9`),
returning the base-10 value; `none` models the `ValueError` raised when a
digit-property character such as a superscript is present. -/
def pyIntOfDigitString (s : String) : Option Nat :=
  if !s.isEmpty && s.data.all Char.isDigit then some (natOfDigits s.data)
  else none

/-- Rejection message of `validate_year_input` (`MIN_YEAR`–`MAX_YEAR`
interpolated). -/
def yearMsg : String := "Invalid year. Enter 1888–2100."

/-- `validate_year_input(v)`: if `v.isdigit()`, parse and accept the text
unchanged when `1888 <= int(v) <= 2100`; otherwise fall through to the
rejection pair.  `none` models the uncaught `ValueError` from `int(v)`. -/
def validate_year_input (v : String) : Option (Bool × String) :=
  if pyStrIsDigit v then
    match pyIntOfDigitString v with
    | none => none
    | some yr =>
      if 1888 ≤ yr ∧ yr ≤ 2100 then some (true, v)
      else some (false, yearMsg)
  else some (false, yearMsg)

/-! ## Python `float(...)` and `validate_rating_input`

`float(v)` is modelled as a parser for the CPython float-literal grammar
(optional surrounding whitespace, optional sign, either a decimal literal
with optional exponent and PEP-515 underscore separators, or the keywords
`inf`/`infinity`/`nan` case-insensitively); `none` models `ValueError`.
The numeric value is kept as an exact rational: real `float` rounds to the
nearest IEEE-754 double, a refinement this embedding does not model, so no
claim about value normalization is settled against it — only control flow
that is independent of rounding (which inputs parse at all, and the
handling of the empty string) is used in the theorems below. -/

/-- Value categories of a Python float produced by `float(str)`. -/
inductive PyFloat where
  | finite (q : ℚ)
  | pinf
  | ninf
  | nan
deriving DecidableEq, Repr

/-- Consume a maximal PEP-515 digit run (digits, with single underscores
between digits) from a list already known to start with a digit; returns
the digits (underscores removed) and the remaining input. -/
def digitRun : List Char → List Char × List Char
  | [] => ([], [])
  | '_' :: c :: rest =>
    if c.isDigit then
      let r := digitRun rest
      (c :: r.1, r.2)
    else ([], '_' :: c :: rest)
  | c :: rest =>
    if c.isDigit then
      let r := digitRun rest
      (c :: r.1, r.2)
    else ([], c :: rest)

/-- Parse a digit run that must start with a digit (no leading
underscore); `none` when the first character is not a digit. -/
def parseDigits (l : List Char) : Option (List Char × List Char) :=
  match l with
  | c :: _ => if c.isDigit then some (digitRun l) else none
  | [] => none

/-- Consume an optional `+`/`-`; the flag is true for `-`. -/
def parseNegSign : List Char → Bool × List Char
  | '+' :: rest => (false, rest)
  | '-' :: rest => (true, rest)
  | l => (false, l)

/-- Parse the exponent body after `e`/`E`: optional sign then digits. -/
def parseExpBody (l : List Char) : Option (Int × List Char) :=
  let s := parseNegSign l
  match parseDigits s.2 with
  | some p =>
    some ((if s.1 then -(natOfDigits p.1 : Int) else (natOfDigits p.1 : Int)), p.2)
  | none => none

/-- Exact rational value of a decimal literal with integer digits `ip`,
fraction digits `fp` and decimal exponent `e`. -/
def decimalValue (ip fp : List Char) (e : Int) : ℚ :=
  ((natOfDigits (ip ++ fp) : ℚ) / (10 : ℚ) ^ (fp.length : ℕ)) * (10 : ℚ) ^ e

/-- Parse an unsigned decimal float literal `[digits][.digits][e…]`
requiring at least one mantissa digit; returns the value and the
remaining input. -/
def parseDecimal (l : List Char) : Option (ℚ × List Char) :=
  let ipr : List Char × List Char :=
    match parseDigits l with
    | some p => p
    | none => ([], l)
  let fpr : List Char × List Char :=
    match ipr.2 with
    | '.' :: rest =>
      match parseDigits rest with
      | some p => p
      | none => ([], rest)
    | _ => ([], ipr.2)
  if ipr.1 = [] ∧ fpr.1 = [] then
    none
  else
    match fpr.2 with
    | 'e' :: rest =>
      match parseExpBody rest with
      | some p => some (decimalValue ipr.1 fpr.1 p.1, p.2)
      | none => none
    | 'E' :: rest =>
      match parseExpBody rest with
      | some p => some (decimalValue ipr.1 fpr.1 p.1, p.2)
      | none => none
    | rest => some (decimalValue ipr.1 fpr.1 0, rest)

/-- Python `float(v)` (`none` = `ValueError`): strip whitespace, read an
optional sign, then either an `inf`/`infinity`/`nan` keyword or a decimal
literal consuming the whole remaining input. -/
def pyFloatOfString (s : String) : Option PyFloat :=
  let l0 := stripList s.data
  let sg := parseNegSign l0
  let low := sg.2.map Char.toLower
  if low = ['i','n','f'] ∨ low = ['i','n','f','i','n','i','t','y'] then
    some (if sg.1 then PyFloat.ninf else PyFloat.pinf)
  else if low = ['n','a','n'] then some PyFloat.nan
  else
    match parseDecimal sg.2 with
    | some (q, []) => some (PyFloat.finite (if sg.1 then -q else q))
    | _ => none

/-- Python `MIN_RATING <= r <= MAX_RATING` on a float: comparisons with
`nan` are false, infinities fall outside `[0, 10]`. -/
def ratingInRange : PyFloat → Bool
  | PyFloat.finite q => decide (0 ≤ q) && decide (q ≤ 10)
  | _ => false

/-- Python `r.is_integer()`. -/
def floatIsInteger : PyFloat → Bool
  | PyFloat.finite q => q.den == 1
  | _ => false

/-- `str(int(r))` for the integral case (`r.is_integer()` holds, so the
value is the finite rational's numerator). -/
def pyFloatIntText : PyFloat → String
  | PyFloat.finite q => q.num.repr
  | _ => ""

/-- Number of times `p` divides `n` (explicit fuel, enough at `n`). -/
def factorCount (p : Nat) : Nat → Nat → Nat
  | _, 0 => 0
  | n, fuel + 1 =>
    if 2 ≤ p ∧ 2 ≤ n ∧ n % p = 0 then factorCount p (n / p) fuel + 1 else 0

/-- `str(r)` for a finite non-integral value: the minimal terminating
decimal text of the rational (every value actually produced by the parser
has denominator `2^a * 5^b`, so `max a b` fraction digits are exact and
minimal).  Real CPython prints the shortest text that round-trips through
the rounded double and switches to exponent notation for extreme
magnitudes; neither refinement is modelled, and no theorem below depends
on this branch. -/
def pyFloatDecText : PyFloat → String
  | PyFloat.finite q =>
    let a := factorCount 2 q.den q.den
    let b := factorCount 5 q.den q.den
    let k := max a b
    let m := q.num.natAbs * 10 ^ k / q.den
    let ds := Nat.toDigits 10 m
    let ds := List.replicate (k + 1 - ds.length) '0' ++ ds
    let ip := ds.take (ds.length - k)
    let fp := ds.drop (ds.length - k)
    String.mk ((if q.num < 0 then ['-'] else []) ++ ip ++ '.' :: fp)
  | _ => ""

/-- Rejection message of `validate_rating_input` (`MIN_RATING` and
`MAX_RATING` are the floats `0.0` and `10.0`). -/
def ratingMsg : String := "Invalid rating. Enter 0.0–10.0."

/-- `validate_rating_input(v)`: `float(v)` with `ValueError` caught; in
range `[0, 10]` accept `str(int(r))` when `r.is_integer()` else `str(r)`;
otherwise reject with the bounds message. -/
def validate_rating_input (v : String) : Bool × String :=
  match pyFloatOfString v with
  | none => (false, ratingMsg)
  | some r =>
    if ratingInRange r then
      (true, if floatIsInteger r then pyFloatIntText r else pyFloatDecText r)
    else (false, ratingMsg)

/-! ## General lemmas -/

/-- `stripList` is right-trimming composed with left-trimming. -/
theorem stripList_eq_rdropWhile (l : List Char) :
    stripList l = List.rdropWhile pyWs (List.dropWhile pyWs l) := rfl

/-- The head of a `dropWhile` result falsifies the predicate. -/
theorem dropWhile_head_not_sat {α : Type} (p : α → Bool) (l : List α) :
    ∀ {a : α} {t : List α}, List.dropWhile p l = a :: t → p a = false := by
  induction l with
  | nil => intro a t h; simp [List.dropWhile] at h
  | cons b l ih =>
    intro a t h
    by_cases hb : p b = true
    · rw [List.dropWhile_cons_of_pos hb] at h
      exact ih h
    · simp only [Bool.not_eq_true] at hb
      rw [List.dropWhile_cons_of_neg (by simp [hb])] at h
      cases h
      exact hb

/-- Stripping an already stripped character list changes nothing. -/
theorem stripList_idem (l : List Char) :
    stripList (stripList l) = stripList l := by
  rw [stripList_eq_rdropWhile, stripList_eq_rdropWhile]
  have hdrop : List.dropWhile pyWs (List.rdropWhile pyWs (List.dropWhile pyWs l)) =
      List.rdropWhile pyWs (List.dropWhile pyWs l) := by
    obtain ⟨t, ht⟩ := List.rdropWhile_prefix pyWs (List.dropWhile pyWs l)
    cases hr : List.rdropWhile pyWs (List.dropWhile pyWs l) with
    | nil => simp
    | cons a t' =>
      have hu : List.dropWhile pyWs l = a :: (t' ++ t) := by
        rw [← ht, hr]
        simp
      have ha : pyWs a = false := dropWhile_head_not_sat pyWs l hu
      rw [List.dropWhile_cons_of_neg (by simp [ha])]
  rw [hdrop, List.rdropWhile_idempotent]

/-- Python `strip` is idempotent. -/
theorem pyStrip_idem (s : String) : pyStrip (pyStrip s) = pyStrip s := by
  show String.mk (stripList (stripList s.data)) = String.mk (stripList s.data)
  rw [stripList_idem]

/-- A string obtained from `strip` is a fixed point of `strip`. -/
theorem pyStrip_fix {a b : String} (h : pyStrip a = b) : pyStrip b = b := by
  subst h
  exact pyStrip_idem a

/-- The scan guard forces the row's stripped username to be the
authenticated username. -/
theorem user_row_match_username {username : String} {mv : Movie} {row : Row}
    (h : user_row_match username mv row = true) :
    pyStrip row.username = username := by
  simp only [user_row_match, Bool.and_eq_true, beq_iff_eq] at h
  exact h.1

/-- `delete_scan` reports no deletion on a store with no matching row and
rebuilds the store as it was. -/
theorem delete_scan_no_match (username : String) (target : Movie) :
    ∀ store : List Row,
      (∀ row ∈ store, user_row_match username target row = false) →
      delete_scan username target store = (false, store)
  | [], _ => rfl
  | row :: rest, h => by
    have hrow := h row (by simp)
    have ih := delete_scan_no_match username target rest
      (fun x hx => h x (by simp [hx]))
    simp [delete_scan, hrow, ih]

/-- `update_scan` reports no update on a store with no matching row and
rebuilds the store as it was. -/
theorem update_scan_no_match (username : String) (oldm newm : Movie) :
    ∀ store : List Row,
      (∀ row ∈ store, user_row_match username oldm row = false) →
      update_scan username oldm newm store = (false, store)
  | [], _ => rfl
  | row :: rest, h => by
    have hrow := h row (by simp)
    have ih := update_scan_no_match username oldm newm rest
      (fun x hx => h x (by simp [hx]))
    simp [update_scan, hrow, ih]

/-- `delete_scan` drops exactly the first matching row. -/
theorem delete_scan_first (username : String) (target : Movie) :
    ∀ (pre : List Row) (r : Row) (rest : List Row),
      (∀ x ∈ pre, user_row_match username target x = false) →
      user_row_match username target r = true →
      delete_scan username target (pre ++ r :: rest) = (true, pre ++ rest)
  | [], r, rest, _, hr => by simp [delete_scan, hr]
  | a :: pre, r, rest, hpre, hr => by
    have ha := hpre a (by simp)
    have ih := delete_scan_first username target pre r rest
      (fun x hx => hpre x (by simp [hx])) hr
    simp [delete_scan, ha, ih]

/-- `update_scan` replaces exactly the first matching row. -/
theorem update_scan_first (username : String) (oldm newm : Movie) :
    ∀ (pre : List Row) (r : Row) (rest : List Row),
      (∀ x ∈ pre, user_row_match username oldm x = false) →
      user_row_match username oldm r = true →
      update_scan username oldm newm (pre ++ r :: rest) =
        (true, pre ++ updated_row username newm :: rest)
  | [], r, rest, _, hr => by simp [update_scan, hr]
  | a :: pre, r, rest, hpre, hr => by
    have ha := hpre a (by simp)
    have ih := update_scan_first username oldm newm pre r rest
      (fun x hx => hpre x (by simp [hx])) hr
    simp [update_scan, ha, ih]

/-- Rows of other users pass through `delete_scan` unchanged. -/
theorem delete_scan_filter_other (username : String) (target : Movie) :
    ∀ store : List Row,
      (delete_scan username target store).2.filter
          (fun row => !(pyStrip row.username == username)) =
        store.filter (fun row => !(pyStrip row.username == username))
  | [] => rfl
  | row :: rest => by
    by_cases h : user_row_match username target row = true
    · have hu : (pyStrip row.username == username) = true :=
        beq_iff_eq.mpr (user_row_match_username h)
      simp [delete_scan, h, List.filter_cons, hu]
    · have ih := delete_scan_filter_other username target rest
      simp only [Bool.not_eq_true] at h
      simp [delete_scan, h, List.filter_cons, ih]

/-- Rows of other users pass through `update_scan` unchanged. -/
theorem update_scan_filter_other (username : String) (oldm newm : Movie) :
    ∀ store : List Row,
      (update_scan username oldm newm store).2.filter
          (fun row => !(pyStrip row.username == username)) =
        store.filter (fun row => !(pyStrip row.username == username))
  | [] => rfl
  | row :: rest => by
    by_cases h : user_row_match username oldm row = true
    · have hu : (pyStrip row.username == username) = true :=
        beq_iff_eq.mpr (user_row_match_username h)
      have hfix : pyStrip username = username :=
        pyStrip_fix (user_row_match_username h)
      have hnew : (pyStrip (updated_row username newm).username == username) = true := by
        simpa [updated_row] using beq_iff_eq.mpr hfix
      simp [update_scan, h, List.filter_cons, hu, hnew]
    · have ih := update_scan_filter_other username oldm newm rest
      simp only [Bool.not_eq_true] at h
      simp [update_scan, h, List.filter_cons, ih]

/-! ## Claim theorems -/

/-- C1: on a store holding two field-identical rows for the same user —
with no matching row before them — one `delete` call with that record as
target returns success, removes exactly the first of the two (the first
matching row in file order), keeps the second identical row, and preserves
the relative order of every other row. -/
theorem delete_removes_first_duplicate
    (username : String) (target : Movie) (pre mid post : List Row) (r : Row)
    (hpre : ∀ x ∈ pre, user_row_match username target x = false)
    (hr : user_row_match username target r = true) :
    delete_movie_record username target (pre ++ r :: (mid ++ r :: post)) =
      (true, pre ++ (mid ++ r :: post)) := by
  have hscan := delete_scan_first username target pre r (mid ++ r :: post) hpre hr
  simp [delete_movie_record, hscan]

theorem delete_removes_first_duplicate_witness :
    delete_movie_record "alice" ⟨"alice", "Dune", "", "", "", "2021", "Y"⟩
        ([⟨"bob", "Dune", "", "", "", "2021", "Y"⟩] ++
          ⟨"alice", "Dune", "", "", "", "2021", "Y"⟩ ::
            ([⟨"alice", "Tron", "", "", "", "1982", "N"⟩] ++
              ⟨"alice", "Dune", "", "", "", "2021", "Y"⟩ :: [])) =
      (true, [⟨"bob", "Dune", "", "", "", "2021", "Y"⟩] ++
        ([⟨"alice", "Tron", "", "", "", "1982", "N"⟩] ++
          ⟨"alice", "Dune", "", "", "", "2021", "Y"⟩ :: [])) :=
  delete_removes_first_duplicate "alice" ⟨"alice", "Dune", "", "", "", "2021", "Y"⟩
    [⟨"bob", "Dune", "", "", "", "2021", "Y"⟩]
    [⟨"alice", "Tron", "", "", "", "1982", "N"⟩] []
    ⟨"alice", "Dune", "", "", "", "2021", "Y"⟩ (by decide) (by decide)

/-- C2: neither `delete` nor `update` for one username ever removes or
mutates a row whose stripped username field differs — for every store, the
subsequence of rows of other users is unchanged in the resulting store. -/
theorem other_user_rows_untouched
    (username : String) (target oldm newm : Movie) (store : List Row) :
    (delete_movie_record username target store).2.filter
        (fun row => !(pyStrip row.username == username)) =
      store.filter (fun row => !(pyStrip row.username == username)) ∧
    (update_movie_record username oldm newm store).2.filter
        (fun row => !(pyStrip row.username == username)) =
      store.filter (fun row => !(pyStrip row.username == username)) := by
  constructor
  · by_cases h : (delete_scan username target store).1 = true
    · have := delete_scan_filter_other username target store
      simp [delete_movie_record, h, this]
    · simp only [Bool.not_eq_true] at h
      simp [delete_movie_record, h]
  · by_cases h : (update_scan username oldm newm store).1 = true
    · have := update_scan_filter_other username oldm newm store
      simp [update_movie_record, h, this]
    · simp only [Bool.not_eq_true] at h
      simp [update_movie_record, h]

/-- C3: when no row matches both the username and full-field equality with
the target record, `delete` and `update` both return not-found and leave
the stored rows unchanged. -/
theorem not_found_leaves_store_unchanged
    (username : String) (target newm : Movie) (store : List Row)
    (h : ∀ row ∈ store, user_row_match username target row = false) :
    delete_movie_record username target store = (false, store) ∧
    update_movie_record username target newm store = (false, store) := by
  have hd := delete_scan_no_match username target store h
  have hu := update_scan_no_match username target newm store h
  constructor
  · simp [delete_movie_record, hd]
  · simp [update_movie_record, hu]

theorem not_found_leaves_store_unchanged_witness :
    delete_movie_record "alice" ⟨"alice", "Dune", "", "", "", "2021", "Y"⟩
        [⟨"bob", "Dune", "", "", "", "2021", "Y"⟩,
          ⟨"alice", "Tron", "", "", "", "1982", "N"⟩] =
      (false, [⟨"bob", "Dune", "", "", "", "2021", "Y"⟩,
        ⟨"alice", "Tron", "", "", "", "1982", "N"⟩]) ∧
    update_movie_record "alice" ⟨"alice", "Dune", "", "", "", "2021", "Y"⟩
        ⟨"alice", "Dune II", "", "", "", "2024", "N"⟩
        [⟨"bob", "Dune", "", "", "", "2021", "Y"⟩,
          ⟨"alice", "Tron", "", "", "", "1982", "N"⟩] =
      (false, [⟨"bob", "Dune", "", "", "", "2021", "Y"⟩,
        ⟨"alice", "Tron", "", "", "", "1982", "N"⟩]) :=
  not_found_leaves_store_unchanged "alice"
    ⟨"alice", "Dune", "", "", "", "2021", "Y"⟩
    ⟨"alice", "Dune II", "", "", "", "2024", "N"⟩
    [⟨"bob", "Dune", "", "", "", "2021", "Y"⟩,
      ⟨"alice", "Tron", "", "", "", "1982", "N"⟩] (by decide)

/-- C8: when a row matches the username and full-field equality with the
old record (watched compared case-insensitively) — and no earlier row does
— `update` returns success and replaces exactly that row with the new
record's title/director/genre/rating/year/watched, its username field
forced to the authenticated username, all other rows and their order
preserved. -/
theorem update_replaces_first_match
    (username : String) (oldm newm : Movie) (pre post : List Row) (r : Row)
    (hpre : ∀ x ∈ pre, user_row_match username oldm x = false)
    (hr : user_row_match username oldm r = true) :
    update_movie_record username oldm newm (pre ++ r :: post) =
      (true, pre ++
        (⟨username, newm.movie_name, newm.director, newm.genre, newm.rating,
          newm.year, newm.watched⟩ : Row) :: post) := by
  have hscan := update_scan_first username oldm newm pre r post hpre hr
  simp [update_movie_record, hscan, updated_row]

theorem update_replaces_first_match_witness :
    update_movie_record "alice" ⟨"alice", "Dune", "", "", "", "2021", "Y"⟩
        ⟨"alice", "Dune II", "Villeneuve", "SciFi", "9", "2024", "N"⟩
        ([⟨"bob", "Dune", "", "", "", "2021", "Y"⟩] ++
          ⟨" alice ", "Dune", "", "", "", "2021", "y"⟩ ::
            [⟨"alice", "Tron", "", "", "", "1982", "N"⟩]) =
      (true, [⟨"bob", "Dune", "", "", "", "2021", "Y"⟩] ++
        (⟨"alice", "Dune II", "Villeneuve", "SciFi", "9", "2024", "N"⟩ : MovieApp.Row) ::
          [⟨"alice", "Tron", "", "", "", "1982", "N"⟩]) :=
  update_replaces_first_match "alice" ⟨"alice", "Dune", "", "", "", "2021", "Y"⟩
    ⟨"alice", "Dune II", "Villeneuve", "SciFi", "9", "2024", "N"⟩
    [⟨"bob", "Dune", "", "", "", "2021", "Y"⟩]
    [⟨"alice", "Tron", "", "", "", "1982", "N"⟩]
    ⟨" alice ", "Dune", "", "", "", "2021", "y"⟩ (by decide) (by decide)

/-- Appending a batch of movies is appending their rows at the end. -/
theorem append_all_eq (ms : List Movie) :
    ∀ store : List Row, append_all ms store = store ++ ms.map movie_to_row := by
  induction ms with
  | nil => intro store; simp [append_all]
  | cons m ms ih =>
    intro store
    show append_all ms (append_movie m store) = _
    rw [ih, append_movie, List.map_cons, List.append_assoc]
    rfl

/-- A movie whose fields are already normalized survives the row
round-trip unchanged. -/
theorem row_round_trip (username : String) (m : Movie)
    (hu : m.username = username)
    (hn : pyStrip m.movie_name = m.movie_name)
    (hd : pyStrip m.director = m.director)
    (hg : pyStrip m.genre = m.genre)
    (hr : pyStrip m.rating = m.rating)
    (hy : pyStrip m.year = m.year)
    (hw : m.watched = "Y" ∨ m.watched = "N") :
    row_to_movie username (movie_to_row m) = m := by
  obtain ⟨u, n, d, g, r, y, w⟩ := m
  have hu' : u = username := hu
  have hn' : pyStrip n = n := hn
  have hd' : pyStrip d = d := hd
  have hg' : pyStrip g = g := hg
  have hr' : pyStrip r = r := hr
  have hy' : pyStrip y = y := hy
  have hw' : w = "Y" ∨ w = "N" := hw
  subst hu'
  show (⟨u, pyStrip n, pyStrip d, pyStrip g, pyStrip r, pyStrip y,
      pyUpper (pyStrip w)⟩ : Movie) = ⟨u, n, d, g, r, y, w⟩
  rw [hn', hd', hg', hr', hy']
  have hY : pyUpper (pyStrip "Y") = "Y" := by decide
  have hN : pyUpper (pyStrip "N") = "N" := by decide
  rcases hw' with h | h <;> subst h <;> simp [hY, hN]

/-- C7: starting from a store with no rows for the user, appending any
batch of normalized records (trimmed fields, watched `Y`/`N`) via
`append_movie` and loading back for that user returns exactly the batch,
in insertion order, fields unchanged. -/
theorem add_then_load_round_trip
    (username : String) (store : List Row) (ms : List Movie)
    (hstore : store.filter (fun row => pyStrip row.username == username) = [])
    (hms : ∀ m ∈ ms, m.username = username ∧
      pyStrip m.username = m.username ∧
      pyStrip m.movie_name = m.movie_name ∧
      pyStrip m.director = m.director ∧
      pyStrip m.genre = m.genre ∧
      pyStrip m.rating = m.rating ∧
      pyStrip m.year = m.year ∧
      (m.watched = "Y" ∨ m.watched = "N")) :
    load_movies_for_user username (append_all ms store) = ms := by
  rw [append_all_eq]
  unfold load_movies_for_user
  rw [List.filter_append, hstore, List.nil_append]
  have hkeep : (ms.map movie_to_row).filter
      (fun row => pyStrip row.username == username) = ms.map movie_to_row := by
    rw [List.filter_eq_self]
    intro row hrow
    obtain ⟨m, hm, rfl⟩ := List.mem_map.mp hrow
    obtain ⟨h1, h2, -⟩ := hms m hm
    show (pyStrip (movie_to_row m).username == username) = true
    have hproj : (movie_to_row m).username = m.username := rfl
    rw [hproj, h2, h1, beq_self_eq_true]
  rw [hkeep, List.map_map]
  calc (ms.map (row_to_movie username ∘ movie_to_row)) = ms.map id := by
        refine List.map_congr_left fun m hm => ?_
        obtain ⟨h1, h2, h3, h4, h5, h6, h7, h8⟩ := hms m hm
        exact row_round_trip username m h1 h3 h4 h5 h6 h7 h8
    _ = ms := List.map_id ms

theorem add_then_load_round_trip_witness :
    load_movies_for_user "alice"
        (append_all
          [⟨"alice", "Dune", "", "", "", "2021", "Y"⟩,
            ⟨"alice", "Tron", "Lisberger", "SciFi", "7.5", "1982", "N"⟩]
          [⟨"bob", "Dune", "", "", "", "2021", "Y"⟩]) =
      [⟨"alice", "Dune", "", "", "", "2021", "Y"⟩,
        ⟨"alice", "Tron", "Lisberger", "SciFi", "7.5", "1982", "N"⟩] :=
  add_then_load_round_trip "alice" [⟨"bob", "Dune", "", "", "", "2021", "Y"⟩]
    [⟨"alice", "Dune", "", "", "", "2021", "Y"⟩,
      ⟨"alice", "Tron", "Lisberger", "SciFi", "7.5", "1982", "N"⟩]
    (by decide) (by decide)

/-- One fold step over the last credential row. -/
theorem load_users_append_singleton (l : List CredRow) (r : CredRow) :
    load_users (l ++ [r]) = load_users_step (load_users l) r := by
  unfold load_users
  rw [List.foldl_append]
  rfl

/-- C9: `load_users` yields the mapping where, among rows sharing one
(stripped) username, the last row's (stripped) password wins, and rows
with a blank stripped username contribute no entry (the blank key is never
present). -/
theorem load_users_last_wins (rows : List CredRow) (q : String) :
    load_users rows q =
      if q = "" then none
      else ((rows.filter (fun r => pyStrip r.username == q)).getLast?).map
        (fun r => pyStrip r.password) := by
  induction rows using List.reverseRecOn with
  | nil => simp [load_users]
  | append_singleton l r ih =>
    rw [load_users_append_singleton, List.filter_append]
    by_cases hq : q = ""
    · subst hq
      simp only [if_pos rfl] at ih ⊢
      simp only [load_users_step]
      split
      · next hne =>
        have : ¬("" = pyStrip r.username) := fun h => hne h.symm
        simp [this, ih]
      · exact ih
    · by_cases hu : pyStrip r.username = q
      · have hne : pyStrip r.username ≠ "" := by rw [hu]; exact hq
        simp only [load_users_step, if_pos hne]
        rw [if_neg hq]
        simp [List.filter_singleton, hu, List.getLast?_concat]
      · have hbeq : (pyStrip r.username == q) = false := by
          simp [hu]
        simp only [load_users_step]
        rw [if_neg hq]
        split
        · next hne =>
          have hx : ¬(q = pyStrip r.username) := fun h => hu h.symm
          simp only [if_neg hx]
          rw [ih, if_neg hq]
          simp [List.filter_singleton, hbeq]
        · rw [ih, if_neg hq]
          simp [List.filter_singleton, hbeq]

/-- C5: divergence witness for the year-validator characterization.  The
claim requires every input that is not a digit string in range to be
rejected with a message, but on `"³"` — whose single character satisfies
Python `str.isdigit` while `int` cannot parse it — `validate_year_input`
raises an uncaught `ValueError` (modelled `none`) instead of returning a
rejection. -/
theorem validate_year_superscript_three_raises :
    validate_year_input "³" = none := by decide

/-- C10: divergence witness for totality of the year validator.  On `"²"`
the `v.isdigit()` guard passes but `int(v)` raises `ValueError`, so
`validate_year_input` does not return a verdict pair (modelled `none`). -/
theorem validate_year_superscript_two_raises :
    validate_year_input "²" = none := by decide

/-- C6 counterexample: the validators do not accept the empty string —
`validate_rating_input("")` hits the `ValueError` branch of `float("")`
and `validate_year_input("")` fails `"".isdigit()`. -/
theorem empty_not_accepted_by_validators :
    ¬(validate_rating_input "" = (true, "") ∧
      validate_year_input "" = some (true, "")) := by decide

/-- C6 as amended: the rating and year validator functions each reject the
empty string with their bounds message (empty input is intercepted by the
prompt layer before these functions are ever called). -/
theorem validators_reject_empty :
    validate_rating_input "" = (false, ratingMsg) ∧
    validate_year_input "" = some (false, yearMsg) := by decide

end MovieApp
